import Mathlib

/-!
Shallow embedding of the funding-rate monitor's core logic
(`src/data_processor.py`, `src/config.py`, `src/main.py`, `src/notifier.py`).

Conventions of the embedding:
* Python floats are modelled as `ℚ` (every operation the code performs on
  them is a comparison, an absolute value, a division by a constant or a
  multiplication by a constant, all exact on `ℚ`).
* Python dicts keyed by symbol are modelled as association lists
  `List (String × α)`; dict `.get` becomes `List.lookup` plus `Option.getD`.
* Wall-clock fields (`timestamp`, `analysis_time`) are side effects of
  `datetime.now` and are omitted from the records; the message formatter
  receives the rendered timestamp as a parameter instead.
-/

/-- One band of the funding-rate threshold table: `{'min': …, 'max': …}`. -/
structure Band where
  min : ℚ
  max : ℚ
deriving DecidableEq

/-- Per-currency funding-rate thresholds
(`FUNDING_RATE_THRESHOLDS[...]` in `config.py`). -/
structure FundingThresholds where
  normal : Band
  hot : Band
  overheated : Band
deriving DecidableEq

/-- Per-currency open-interest thresholds (`OI_THRESHOLDS[...]`, in
millions of USD). -/
structure OIThresholds where
  low : ℚ
  high : ℚ
deriving DecidableEq

/-- `config.py` `FUNDING_RATE_THRESHOLDS['BTC']`. -/
def fundingBTC : FundingThresholds :=
  { normal := { min := 0, max := 3/10000 }
    hot := { min := 5/10000, max := 1/1000 }
    overheated := { min := 1/1000, max := 999 } }

/-- `config.py` `FUNDING_RATE_THRESHOLDS['ETH']`. -/
def fundingETH : FundingThresholds :=
  { normal := { min := 0, max := 5/10000 }
    hot := { min := 1/1000, max := 15/10000 }
    overheated := { min := 2/1000, max := 999 } }

/-- `config.py` `FUNDING_RATE_THRESHOLDS['DEFAULT']`. -/
def fundingDEFAULT : FundingThresholds :=
  { normal := { min := -5/1000, max := 5/1000 }
    hot := { min := 1/100, max := 15/1000 }
    overheated := { min := 2/100, max := 999 } }

/-- `config.py` `FUNDING_RATE_THRESHOLDS` as an association list. -/
def FUNDING_RATE_THRESHOLDS : List (String × FundingThresholds) :=
  [("BTC", fundingBTC), ("ETH", fundingETH), ("DEFAULT", fundingDEFAULT)]

/-- `config.py` `OI_THRESHOLDS['BTC']`. -/
def oiBTC : OIThresholds := { low := 1000, high := 5000 }

/-- `config.py` `OI_THRESHOLDS['ETH']`. -/
def oiETH : OIThresholds := { low := 500, high := 2000 }

/-- `config.py` `OI_THRESHOLDS['DEFAULT']`. -/
def oiDEFAULT : OIThresholds := { low := 50, high := 200 }

/-- `config.py` `OI_THRESHOLDS` as an association list. -/
def OI_THRESHOLDS : List (String × OIThresholds) :=
  [("BTC", oiBTC), ("ETH", oiETH), ("DEFAULT", oiDEFAULT)]

/-- The characters of a string before the first `'/'`
(Python `symbol.split('/')[0]`, structurally recursive so that it
evaluates on concrete inputs). -/
def takeUntilSlash : List Char → List Char
  | [] => []
  | c :: cs => if c = '/' then [] else c :: takeUntilSlash cs

/-- Python `symbol.split('/')[0]`: the base currency of a trading-pair
symbol string. -/
def baseCurrency (symbol : String) : String :=
  String.mk (takeUntilSlash symbol.data)

/-- `Config.get_symbol_threshold`: funding-rate thresholds for a symbol,
falling back to the `DEFAULT` entry. -/
def get_symbol_threshold (symbol : String) : FundingThresholds :=
  (FUNDING_RATE_THRESHOLDS.lookup (baseCurrency symbol)).getD fundingDEFAULT

/-- `Config.get_oi_threshold`: open-interest thresholds for a symbol,
falling back to the `DEFAULT` entry. -/
def get_oi_threshold (symbol : String) : OIThresholds :=
  (OI_THRESHOLDS.lookup (baseCurrency symbol)).getD oiDEFAULT

/-- `DataProcessor._determine_funding_status`. -/
def determine_funding_status (funding_rate : ℚ) (thresholds : FundingThresholds) : String :=
  let abs_rate := |funding_rate|
  if abs_rate ≥ thresholds.overheated.min then "overheated"
  else if abs_rate ≥ thresholds.hot.min then "hot"
  else "normal"

/-- `DataProcessor._calculate_risk_level`. -/
def calculate_risk_level (funding_rate : ℚ) (thresholds : FundingThresholds) : ℕ :=
  let abs_rate := |funding_rate|
  if abs_rate ≥ thresholds.overheated.min then 5
  else if abs_rate ≥ thresholds.hot.min then 3
  else 1

/-- `DataProcessor._determine_oi_status`. -/
def determine_oi_status (oi_usd : ℚ) (thresholds : OIThresholds) : String :=
  let oi_millions := oi_usd / 1000000
  if oi_millions ≥ thresholds.high then "high"
  else if oi_millions ≥ thresholds.low then "medium"
  else "low"

/-- Ordinal rank of an open-interest status label: low < medium < high. -/
def oiRank (status : String) : ℕ :=
  if status = "high" then 2 else if status = "medium" then 1 else 0

/-- C1: any rate whose absolute value reaches `overheated.min` is classified
overheated with risk level 5, for every threshold table and either sign. -/
theorem funding_overheated_classification (r : ℚ) (t : FundingThresholds)
    (h : t.overheated.min ≤ |r|) :
    determine_funding_status r t = "overheated" ∧ calculate_risk_level r t = 5 := by
  unfold determine_funding_status calculate_risk_level
  rw [if_pos h, if_pos h]
  exact ⟨rfl, rfl⟩

/-- Witness for C1 at `r = -0.002` with the BTC table
(`overheated.min = 0.001`): a negative rate is still overheated. -/
theorem funding_overheated_classification_witness :
    determine_funding_status (-2/1000) fundingBTC = "overheated" ∧
      calculate_risk_level (-2/1000) fundingBTC = 5 :=
  funding_overheated_classification (-2/1000) fundingBTC
    (by rw [le_abs]; right; norm_num [fundingBTC])

/-- A threshold table with `overheated.min` below `hot.min` (no config table
is shaped like this, but the classifier accepts any table). -/
def fundingInverted : FundingThresholds :=
  { normal := { min := 0, max := 0 }
    hot := { min := 1/100, max := 0 }
    overheated := { min := 1/1000, max := 0 } }

/-- Counterexample to C2 as stated: the claim says every rate below
`hot.min` is classified "normal" with risk 1 for every threshold table, but
`_determine_funding_status` tests `overheated.min` first, so with
`overheated.min = 0.001 < hot.min = 0.01` the rate 0.005 is below `hot.min`
yet classified "overheated" with risk 5. -/
theorem normal_band_counterexample :
    |(5/1000 : ℚ)| < fundingInverted.hot.min ∧
    determine_funding_status (5/1000) fundingInverted = "overheated" ∧
    calculate_risk_level (5/1000) fundingInverted = 5 := by
  have habs : |(5/1000 : ℚ)| = 5/1000 := abs_of_pos (by norm_num)
  refine ⟨by rw [habs]; norm_num [fundingInverted], ?_, ?_⟩ <;>
    simp only [determine_funding_status, calculate_risk_level] <;>
    rw [habs] <;> norm_num [fundingInverted]

/-- C2 amended: rates in `[hot.min, overheated.min)` are hot with risk 3,
rates below both `hot.min` and `overheated.min` are normal with risk 1 (for
tables with `hot.min ≤ overheated.min`, as every config table has, this is
exactly "below `hot.min`"), and both classifier outputs depend only on the
three band `min` fields (every `max` field is unused). -/
theorem funding_hot_normal_and_max_unused (r : ℚ) (t : FundingThresholds) :
    (t.hot.min ≤ |r| → |r| < t.overheated.min →
      determine_funding_status r t = "hot" ∧ calculate_risk_level r t = 3) ∧
    (|r| < t.hot.min → |r| < t.overheated.min →
      determine_funding_status r t = "normal" ∧ calculate_risk_level r t = 1) ∧
    (∀ t' : FundingThresholds, t'.normal.min = t.normal.min →
      t'.hot.min = t.hot.min → t'.overheated.min = t.overheated.min →
      determine_funding_status r t' = determine_funding_status r t ∧
        calculate_risk_level r t' = calculate_risk_level r t) := by
  refine ⟨?_, ?_, ?_⟩
  · intro hlo hhi
    unfold determine_funding_status calculate_risk_level
    rw [if_neg (not_le.mpr hhi), if_pos hlo, if_neg (not_le.mpr hhi), if_pos hlo]
    exact ⟨rfl, rfl⟩
  · intro hlo hhi
    unfold determine_funding_status calculate_risk_level
    rw [if_neg (not_le.mpr hhi), if_neg (not_le.mpr hlo),
      if_neg (not_le.mpr hhi), if_neg (not_le.mpr hlo)]
    exact ⟨rfl, rfl⟩
  · intro t' _ hh ho
    unfold determine_funding_status calculate_risk_level
    rw [hh, ho]
    exact ⟨rfl, rfl⟩

/-- Witness for C2 with the BTC table: `0.0007` is hot (risk 3), `0.0001` is
normal (risk 1), and zeroing out every `max` field changes nothing. -/
theorem funding_hot_normal_and_max_unused_witness :
    (determine_funding_status (7/10000) fundingBTC = "hot" ∧
      calculate_risk_level (7/10000) fundingBTC = 3) ∧
    (determine_funding_status (1/10000) fundingBTC = "normal" ∧
      calculate_risk_level (1/10000) fundingBTC = 1) ∧
    (determine_funding_status (7/10000)
        { normal := { min := 0, max := 0 }, hot := { min := 5/10000, max := 0 }
          overheated := { min := 1/1000, max := 0 } } =
      determine_funding_status (7/10000) fundingBTC ∧
      calculate_risk_level (7/10000)
        { normal := { min := 0, max := 0 }, hot := { min := 5/10000, max := 0 }
          overheated := { min := 1/1000, max := 0 } } =
      calculate_risk_level (7/10000) fundingBTC) := by
  have h7 : |(7/10000 : ℚ)| = 7/10000 := abs_of_pos (by norm_num)
  have h1 : |(1/10000 : ℚ)| = 1/10000 := abs_of_pos (by norm_num)
  refine ⟨(funding_hot_normal_and_max_unused (7/10000) fundingBTC).1
      (by rw [h7]; norm_num [fundingBTC]) (by rw [h7]; norm_num [fundingBTC]),
    (funding_hot_normal_and_max_unused (1/10000) fundingBTC).2.1
      (by rw [h1]; norm_num [fundingBTC]) (by rw [h1]; norm_num [fundingBTC]),
    (funding_hot_normal_and_max_unused (7/10000) fundingBTC).2.2 _ rfl rfl rfl⟩

/-- C6: the open-interest classifier is monotone: a larger `oi_usd` never
gets a strictly lower ordinal rank (low < medium < high). -/
theorem oi_status_monotone (t : OIThresholds) (a b : ℚ) (hab : a ≤ b) :
    oiRank (determine_oi_status a t) ≤ oiRank (determine_oi_status b t) := by
  have hm : a / 1000000 ≤ b / 1000000 := by
    apply div_le_div_of_nonneg_right hab
    norm_num
  simp only [determine_oi_status]
  split_ifs with h1 h2 h3 h4 h5 <;> simp [oiRank] <;> linarith

/-- Witness for C6: `oi_usd` 100 M versus 3 000 M under the BTC table. -/
theorem oi_status_monotone_witness :
    oiRank (determine_oi_status 100000000 oiBTC) ≤
      oiRank (determine_oi_status 3000000000 oiBTC) :=
  oi_status_monotone oiBTC 100000000 3000000000 (by norm_num)

/-- Counterexample to C7 as stated: the claim quantifies over *every*
threshold table, but a table with `overheated.min = 0` classifies the rate 0
as overheated, not normal. -/
theorem zero_rate_counterexample :
    determine_funding_status 0
      { normal := { min := 0, max := 0 }, hot := { min := 0, max := 0 }
        overheated := { min := 0, max := 0 } } = "overheated" := by
  unfold determine_funding_status
  rw [if_pos (by norm_num)]

/-- C7 amended: the classifiers are total Lean functions, and for every
threshold table with positive `hot.min`, `overheated.min`, `low` and `high`
(as every table in `config.py` has), the inputs rate = 0 and oi_usd = 0 fall
into "normal" (risk 1) and "low" with no special-casing. -/
theorem zero_inputs_classified_normal_low (t : FundingThresholds) (ot : OIThresholds)
    (h1 : 0 < t.hot.min) (h2 : 0 < t.overheated.min)
    (h3 : 0 < ot.low) (h4 : 0 < ot.high) :
    determine_funding_status 0 t = "normal" ∧ calculate_risk_level 0 t = 1 ∧
      determine_oi_status 0 ot = "low" := by
  unfold determine_funding_status calculate_risk_level determine_oi_status
  rw [abs_zero]
  rw [if_neg (not_le.mpr h2), if_neg (not_le.mpr h1),
    if_neg (not_le.mpr h2), if_neg (not_le.mpr h1)]
  refine ⟨rfl, rfl, ?_⟩
  rw [zero_div, if_neg (not_le.mpr h4), if_neg (not_le.mpr h3)]

/-- Witness for the amended C7 at the BTC tables from `config.py`. -/
theorem zero_inputs_classified_normal_low_witness :
    determine_funding_status 0 fundingBTC = "normal" ∧
      calculate_risk_level 0 fundingBTC = 1 ∧
      determine_oi_status 0 oiBTC = "low" :=
  zero_inputs_classified_normal_low fundingBTC oiBTC
    (by norm_num [fundingBTC]) (by norm_num [fundingBTC])
    (by norm_num [oiBTC]) (by norm_num [oiBTC])

/-- Output record of `DataProcessor.analyze_funding_rate` for one symbol
(the `timestamp` field, a wall-clock value, is omitted). -/
structure FundingAnalysisRec where
  base_currency : String
  funding_rate : ℚ
  funding_rate_percent : ℚ
  annualized_rate : ℚ
  annualized_rate_percent : ℚ
  status : String
  risk_level : ℕ
  signal : String
deriving DecidableEq

/-- Output record of `DataProcessor.analyze_open_interest` for one symbol
(the `timestamp` field omitted). -/
structure OIAnalysisRec where
  base_currency : String
  open_interest : ℚ
  open_interest_usd : ℚ
  open_interest_usd_millions : ℚ
  mark_price : ℚ
  oi_status : String
deriving DecidableEq

/-- Entry of the per-symbol `price_dict` built inside
`DataProcessor.combine_analysis`. -/
structure PriceRec where
  price : ℚ
  change_24h_percent : ℚ
  volume_24h : ℚ
deriving DecidableEq

/-- Output record of `DataProcessor.combine_analysis` for one symbol
(the `analysis_time` wall-clock field omitted). -/
structure CombinedRec where
  symbol : String
  base_currency : String
  funding_rate_percent : ℚ
  funding_status : String
  funding_risk_level : ℕ
  oi_usd_millions : ℚ
  oi_status : String
  price : ℚ
  price_change_24h_percent : ℚ
  combined_signal : String
deriving DecidableEq

/-- Alert dict built by `FundingMonitor._check_alerts`. -/
structure AlertEntry where
  symbol : String
  base_currency : String
  funding_rate_percent : ℚ
  status : String
  signal : String
  priority : String
deriving DecidableEq

/-- Decimal rendering of a natural number scaled by `10 ^ dec`
(integer part, dot, `dec` zero-padded fractional digits). -/
def fmtScaled (dec : ℕ) (n : ℕ) : String :=
  let fpStr := toString (n % 10 ^ dec)
  toString (n / 10 ^ dec) ++ "." ++
    String.mk (List.replicate (dec - fpStr.length) '0') ++ fpStr

/-- Model of Python `format(q, '.2f')`-style rendering on `ℚ`: sign for
negatives only, then `dec` decimals (round half up). -/
def fmtFixed (dec : ℕ) (q : ℚ) : String :=
  (if q < 0 then "-" else "") ++ fmtScaled dec (⌊|q| * 10 ^ dec + 1/2⌋).toNat

/-- Model of Python `format(q, '+.4f')`-style rendering on `ℚ`: explicit
sign, then `dec` decimals (round half up). -/
def fmtSigned (dec : ℕ) (q : ℚ) : String :=
  (if q < 0 then "-" else "+") ++ fmtScaled dec (⌊|q| * 10 ^ dec + 1/2⌋).toNat

/-- Python `sep.join(strings)`. -/
def joinSep (sep : String) : List String → String
  | [] => ""
  | [x] => x
  | x :: y :: ys => x ++ sep ++ joinSep sep (y :: ys)

/-- Messages the funding axis contributes in
`DataProcessor._generate_combined_signal`. -/
def fundingSignals (funding_data : Option FundingAnalysisRec) : List String :=
  match funding_data with
  | none => []
  | some fd =>
    if fd.status = "overheated" then
      if fd.funding_rate > 0 then ["資金費率過熱(多頭擁擠)"]
      else ["資金費率過冷(空頭擁擠)"]
    else []

/-- Messages the open-interest axis contributes in
`DataProcessor._generate_combined_signal`. -/
def oiSignals (oi_data : Option OIAnalysisRec) : List String :=
  match oi_data with
  | none => []
  | some od => if od.oi_status = "high" then ["未平倉合約偏高"] else []

/-- Messages the price axis contributes in
`DataProcessor._generate_combined_signal`. -/
def priceSignals (price_data : Option PriceRec) : List String :=
  match price_data with
  | none => []
  | some pd =>
    if |pd.change_24h_percent| > 5 then
      ["價格大幅" ++ (if pd.change_24h_percent > 0 then "上漲" else "下跌") ++
        "(" ++ fmtFixed 2 pd.change_24h_percent ++ "%)"]
    else []

/-- `DataProcessor._generate_combined_signal`. -/
def generate_combined_signal (funding_data : Option FundingAnalysisRec)
    (oi_data : Option OIAnalysisRec) (price_data : Option PriceRec) : String :=
  let signals := fundingSignals funding_data ++ oiSignals oi_data ++
    priceSignals price_data
  if signals = [] then "市場正常" else joinSep " | " signals

lemma joinSep_cons_data (sep x : String) (xs : List String) :
    ∃ t, (joinSep sep (x :: xs)).data = x.data ++ t := by
  cases xs with
  | nil => exact ⟨[], (List.append_nil _).symm⟩
  | cons y ys =>
    refine ⟨(sep ++ joinSep sep (y :: ys)).data, ?_⟩
    show (x ++ sep ++ joinSep sep (y :: ys)).data = _
    rw [String.append_assoc, String.data_append]

lemma joinSep_ne_market_normal (sep x : String) (xs : List String) (c : Char)
    (l : List Char) (hx : x.data = c :: l) (hc : c ≠ '市') :
    joinSep sep (x :: xs) ≠ "市場正常" := by
  obtain ⟨t, ht⟩ := joinSep_cons_data sep x xs
  intro he
  have hd := congrArg String.data he
  rw [ht, hx, List.cons_append] at hd
  have hm : ("市場正常" : String).data = '市' :: ['場', '正', '常'] := rfl
  rw [hm] at hd
  exact hc (List.head_eq_of_cons_eq hd)

lemma fundingSignals_eq_nil_iff (f : Option FundingAnalysisRec) :
    fundingSignals f = [] ↔ ∀ fd, f = some fd → fd.status ≠ "overheated" := by
  cases f with
  | none => simp [fundingSignals]
  | some fd =>
    by_cases h : fd.status = "overheated" <;>
      by_cases h2 : fd.funding_rate > 0 <;> simp [fundingSignals, h, h2]

lemma oiSignals_eq_nil_iff (o : Option OIAnalysisRec) :
    oiSignals o = [] ↔ ∀ od, o = some od → od.oi_status ≠ "high" := by
  cases o with
  | none => simp [oiSignals]
  | some od => by_cases h : od.oi_status = "high" <;> simp [oiSignals, h]

lemma priceSignals_eq_nil_iff (p : Option PriceRec) :
    priceSignals p = [] ↔ ∀ pd, p = some pd → |pd.change_24h_percent| ≤ 5 := by
  cases p with
  | none => simp [priceSignals]
  | some pd =>
    by_cases h : |pd.change_24h_percent| > 5
    · have h2 := not_le.mpr h
      simp [priceSignals, h, h2]
    · have h2 := not_lt.mp h
      simp [priceSignals, h, h2]

lemma head_append2 (a b : String) (c : Char) (l : List Char)
    (ha : a.data = c :: l) : ∃ l2, (a ++ b).data = c :: l2 :=
  ⟨l ++ b.data, by rw [String.data_append, ha, List.cons_append]⟩

lemma signal_elements_head (f : Option FundingAnalysisRec)
    (o : Option OIAnalysisRec) (p : Option PriceRec) (s : String)
    (hs : s ∈ fundingSignals f ++ oiSignals o ++ priceSignals p) :
    ∃ c l, s.data = c :: l ∧ c ≠ '市' := by
  rw [List.mem_append, List.mem_append] at hs
  rcases hs with (hs | hs) | hs
  · cases f with
    | none => simp [fundingSignals] at hs
    | some fd =>
      simp only [fundingSignals] at hs
      split_ifs at hs <;> simp at hs <;> subst hs
      · exact ⟨'資', _, rfl, by decide⟩
      · exact ⟨'資', _, rfl, by decide⟩
  · cases o with
    | none => simp [oiSignals] at hs
    | some od =>
      simp only [oiSignals] at hs
      split_ifs at hs <;> simp at hs
      subst hs
      exact ⟨'未', _, rfl, by decide⟩
  · cases p with
    | none => simp [priceSignals] at hs
    | some pd =>
      simp only [priceSignals] at hs
      split_ifs at hs <;> simp at hs <;> subst hs
      · obtain ⟨l1, hl1⟩ := head_append2 "價格大幅上漲("
          (fmtFixed 2 pd.change_24h_percent) '價' ("格大幅上漲(").data rfl
        obtain ⟨l2, hl2⟩ := head_append2 _ "%)" '價' l1 hl1
        exact ⟨'價', l2, hl2, by decide⟩
      · obtain ⟨l1, hl1⟩ := head_append2 "價格大幅下跌("
          (fmtFixed 2 pd.change_24h_percent) '價' ("格大幅下跌(").data rfl
        obtain ⟨l2, hl2⟩ := head_append2 _ "%)" '價' l1 hl1
        exact ⟨'價', l2, hl2, by decide⟩

/-- C3: the combined signal is the "market normal" message exactly when the
funding axis is not overheated, the OI axis is not high, and the absolute
24h price change is at most 5 percent, for every combination of possibly
absent input records. -/
theorem combined_signal_market_normal_iff (f : Option FundingAnalysisRec)
    (o : Option OIAnalysisRec) (p : Option PriceRec) :
    generate_combined_signal f o p = "市場正常" ↔
      ((∀ fd, f = some fd → fd.status ≠ "overheated") ∧
       (∀ od, o = some od → od.oi_status ≠ "high") ∧
       (∀ pd, p = some pd → |pd.change_24h_percent| ≤ 5)) := by
  unfold generate_combined_signal
  by_cases h : fundingSignals f ++ oiSignals o ++ priceSignals p = []
  · rw [if_pos h]
    rw [List.append_eq_nil, List.append_eq_nil] at h
    exact iff_of_true rfl ⟨(fundingSignals_eq_nil_iff f).mp h.1.1,
      (oiSignals_eq_nil_iff o).mp h.1.2, (priceSignals_eq_nil_iff p).mp h.2⟩
  · rw [if_neg h]
    have hne : joinSep " | " (fundingSignals f ++ oiSignals o ++ priceSignals p)
        ≠ "市場正常" := by
      cases hcons : fundingSignals f ++ oiSignals o ++ priceSignals p with
      | nil => exact absurd hcons h
      | cons x xs =>
        obtain ⟨c, l, hx, hc⟩ := signal_elements_head f o p x
          (hcons ▸ List.mem_cons_self x xs)
        exact joinSep_ne_market_normal " | " x xs c l hx hc
    refine iff_of_false hne ?_
    rintro ⟨ha, hb, hc2⟩
    refine h ?_
    rw [(fundingSignals_eq_nil_iff f).mpr ha,
      (oiSignals_eq_nil_iff o).mpr hb, (priceSignals_eq_nil_iff p).mpr hc2]
    rfl

/-- The per-symbol record built in the loop body of
`DataProcessor.combine_analysis` (dict `.get` defaults become
`Option.map … |>.getD …`). -/
def combineRecord (funding_analysis : List (String × FundingAnalysisRec))
    (oi_analysis : List (String × OIAnalysisRec))
    (price_data : List (String × PriceRec)) (symbol : String) : CombinedRec :=
  let funding_data := funding_analysis.lookup symbol
  let oi_data := oi_analysis.lookup symbol
  let price_info := price_data.lookup symbol
  { symbol := symbol
    base_currency := (funding_data.map (·.base_currency)).getD (baseCurrency symbol)
    funding_rate_percent := (funding_data.map (·.funding_rate_percent)).getD 0
    funding_status := (funding_data.map (·.status)).getD "unknown"
    funding_risk_level := (funding_data.map (·.risk_level)).getD 0
    oi_usd_millions := (oi_data.map (·.open_interest_usd_millions)).getD 0
    oi_status := (oi_data.map (·.oi_status)).getD "unknown"
    price := (price_info.map (·.price)).getD 0
    price_change_24h_percent := (price_info.map (·.change_24h_percent)).getD 0
    combined_signal := generate_combined_signal funding_data oi_data price_info }

/-- `DataProcessor.combine_analysis`: one combined record per symbol in the
union of the funding-analysis and OI-analysis key sets. -/
def combine_analysis (funding_analysis : List (String × FundingAnalysisRec))
    (oi_analysis : List (String × OIAnalysisRec))
    (price_data : List (String × PriceRec)) : List (String × CombinedRec) :=
  let all_symbols :=
    (funding_analysis.map Prod.fst ++ oi_analysis.map Prod.fst).dedup
  all_symbols.map fun symbol =>
    (symbol, combineRecord funding_analysis oi_analysis price_data symbol)

lemma lookup_eq_none_of_not_mem {α : Type} (l : List (String × α)) (s : String)
    (h : s ∉ l.map Prod.fst) : l.lookup s = none := by
  induction l with
  | nil => rfl
  | cons kv t ih =>
    cases kv with
    | mk k v =>
      simp only [List.map, List.mem_cons, not_or] at h
      have hk : (s == k) = false := beq_eq_false_iff_ne.mpr h.1
      simp [List.lookup, hk, ih h.2]

lemma combine_keys (f : List (String × FundingAnalysisRec))
    (o : List (String × OIAnalysisRec)) (p : List (String × PriceRec))
    (s : String) :
    s ∈ (combine_analysis f o p).map Prod.fst ↔
      s ∈ f.map Prod.fst ∨ s ∈ o.map Prod.fst := by
  unfold combine_analysis
  rw [List.map_map]
  have hid : (Prod.fst ∘ fun symbol =>
      (symbol, combineRecord f o p symbol)) = id := rfl
  rw [hid, List.map_id, List.mem_dedup, List.mem_append]

lemma mem_combine {f : List (String × FundingAnalysisRec)}
    {o : List (String × OIAnalysisRec)} {p : List (String × PriceRec)}
    {s : String} {r : CombinedRec} :
    (s, r) ∈ combine_analysis f o p ↔
      (s ∈ f.map Prod.fst ∨ s ∈ o.map Prod.fst) ∧ r = combineRecord f o p s := by
  unfold combine_analysis
  rw [List.mem_map]
  constructor
  · rintro ⟨sym, hmem, heq⟩
    injection heq with h1 h2
    subst h1
    rw [List.mem_dedup, List.mem_append] at hmem
    exact ⟨hmem, h2.symm⟩
  · rintro ⟨hmem, rfl⟩
    exact ⟨s, by rw [List.mem_dedup, List.mem_append]; exact hmem, rfl⟩

/-- C5: the aggregator is total, its key set is the union of the funding and
OI key sets (so empty inputs give an empty result and price-only symbols are
dropped), and a missing metric defaults that metric's numeric fields to 0 and
its status to "unknown" (missing price gives price 0 and 0 % change). -/
theorem combine_analysis_total_union_defaults :
    (∀ p : List (String × PriceRec), combine_analysis [] [] p = []) ∧
    (∀ (f : List (String × FundingAnalysisRec))
      (o : List (String × OIAnalysisRec)) (p : List (String × PriceRec))
      (s : String), s ∈ (combine_analysis f o p).map Prod.fst ↔
        s ∈ f.map Prod.fst ∨ s ∈ o.map Prod.fst) ∧
    (∀ (f : List (String × FundingAnalysisRec))
      (o : List (String × OIAnalysisRec)) (p : List (String × PriceRec))
      (s : String), s ∈ p.map Prod.fst → s ∉ f.map Prod.fst →
        s ∉ o.map Prod.fst → s ∉ (combine_analysis f o p).map Prod.fst) ∧
    (∀ (f : List (String × FundingAnalysisRec))
      (o : List (String × OIAnalysisRec)) (p : List (String × PriceRec))
      (s : String) (r : CombinedRec), (s, r) ∈ combine_analysis f o p →
        s ∉ f.map Prod.fst → r.funding_rate_percent = 0 ∧
          r.funding_status = "unknown" ∧ r.funding_risk_level = 0) ∧
    (∀ (f : List (String × FundingAnalysisRec))
      (o : List (String × OIAnalysisRec)) (p : List (String × PriceRec))
      (s : String) (r : CombinedRec), (s, r) ∈ combine_analysis f o p →
        s ∉ o.map Prod.fst → r.oi_usd_millions = 0 ∧ r.oi_status = "unknown") ∧
    (∀ (f : List (String × FundingAnalysisRec))
      (o : List (String × OIAnalysisRec)) (p : List (String × PriceRec))
      (s : String) (r : CombinedRec), (s, r) ∈ combine_analysis f o p →
        s ∉ p.map Prod.fst → r.price = 0 ∧
          r.price_change_24h_percent = 0) := by
  refine ⟨fun p => rfl, combine_keys, ?_, ?_, ?_, ?_⟩
  · intro f o p s _ hf ho
    rw [combine_keys]
    rintro (h | h)
    · exact hf h
    · exact ho h
  · intro f o p s r hmem hf
    obtain ⟨-, rfl⟩ := mem_combine.mp hmem
    have hn := lookup_eq_none_of_not_mem f s hf
    simp [combineRecord, hn]
  · intro f o p s r hmem ho
    obtain ⟨-, rfl⟩ := mem_combine.mp hmem
    have hn := lookup_eq_none_of_not_mem o s ho
    simp [combineRecord, hn]
  · intro f o p s r hmem hp
    obtain ⟨-, rfl⟩ := mem_combine.mp hmem
    have hn := lookup_eq_none_of_not_mem p s hp
    simp [combineRecord, hn]

/-- Sample funding-analysis record used by witnesses. -/
def fSample : FundingAnalysisRec :=
  { base_currency := "BTC", funding_rate := 0, funding_rate_percent := 0
    annualized_rate := 0, annualized_rate_percent := 0, status := "normal"
    risk_level := 1, signal := "⚪ 資金費率正常" }

/-- The combined record `combine_analysis` produces for a funding-only
`"BTC/USDT"` entry. -/
def combinedBTC : CombinedRec :=
  { symbol := "BTC/USDT", base_currency := "BTC", funding_rate_percent := 0
    funding_status := "normal", funding_risk_level := 1, oi_usd_millions := 0
    oi_status := "unknown", price := 0, price_change_24h_percent := 0
    combined_signal := "市場正常" }

/-- Witness for C5: the empty inputs give an empty result, and the record
for a funding-only symbol has its OI and price fields defaulted. -/
theorem combine_analysis_total_union_defaults_witness :
    combine_analysis [] [] [] = [] ∧
    (combinedBTC.oi_usd_millions = 0 ∧ combinedBTC.oi_status = "unknown") ∧
    (combinedBTC.price = 0 ∧ combinedBTC.price_change_24h_percent = 0) :=
  ⟨combine_analysis_total_union_defaults.1 [],
    combine_analysis_total_union_defaults.2.2.2.2.1 [("BTC/USDT", fSample)]
      [] [] "BTC/USDT" combinedBTC (List.mem_singleton.mpr rfl) (by simp),
    combine_analysis_total_union_defaults.2.2.2.2.2 [("BTC/USDT", fSample)]
      [] [] "BTC/USDT" combinedBTC (List.mem_singleton.mpr rfl) (by simp)⟩

/-- C10: a symbol present only in the OI analysis gets base_currency from
the symbol text before the first '/', funding_status "unknown" and
funding_risk_level 0 — a value `_calculate_risk_level` itself never returns
(it only returns 1, 3 or 5). -/
theorem oi_only_symbol_defaults (f : List (String × FundingAnalysisRec))
    (o : List (String × OIAnalysisRec)) (p : List (String × PriceRec))
    (s : String) (r : CombinedRec) (h1 : (s, r) ∈ combine_analysis f o p)
    (_h2 : s ∈ o.map Prod.fst) (h3 : s ∉ f.map Prod.fst) :
    r.base_currency = baseCurrency s ∧ r.funding_status = "unknown" ∧
      r.funding_risk_level = 0 ∧
      ∀ (rate : ℚ) (t : FundingThresholds), calculate_risk_level rate t = 1 ∨
        calculate_risk_level rate t = 3 ∨ calculate_risk_level rate t = 5 := by
  obtain ⟨-, rfl⟩ := mem_combine.mp h1
  have hn := lookup_eq_none_of_not_mem f s h3
  refine ⟨by simp [combineRecord, hn], by simp [combineRecord, hn],
    by simp [combineRecord, hn], ?_⟩
  intro rate t
  simp only [calculate_risk_level]
  split_ifs <;> simp

/-- Sample OI-analysis record used by witnesses. -/
def oiSample : OIAnalysisRec :=
  { base_currency := "ADA", open_interest := 1, open_interest_usd := 1000000
    open_interest_usd_millions := 1, mark_price := 1, oi_status := "low" }

/-- The combined record `combine_analysis` produces for an OI-only
`"ADA/USDT"` entry. -/
def combinedADA : CombinedRec :=
  { symbol := "ADA/USDT", base_currency := "ADA", funding_rate_percent := 0
    funding_status := "unknown", funding_risk_level := 0, oi_usd_millions := 1
    oi_status := "low", price := 0, price_change_24h_percent := 0
    combined_signal := "市場正常" }

/-- Witness for C10 on an OI-only `"ADA/USDT"` entry. -/
theorem oi_only_symbol_defaults_witness :
    combinedADA.base_currency = baseCurrency "ADA/USDT" ∧
      combinedADA.funding_status = "unknown" ∧
      combinedADA.funding_risk_level = 0 ∧
      ∀ (rate : ℚ) (t : FundingThresholds), calculate_risk_level rate t = 1 ∨
        calculate_risk_level rate t = 3 ∨ calculate_risk_level rate t = 5 :=
  oi_only_symbol_defaults [] [("ADA/USDT", oiSample)] [] "ADA/USDT"
    combinedADA (List.mem_singleton.mpr rfl) (by simp) (by simp)

/-- `FundingMonitor._check_alerts`: the alert dict built for a selected
symbol. -/
def alertEntryOf (sd : String × CombinedRec) : AlertEntry :=
  { symbol := sd.1, base_currency := sd.2.base_currency
    funding_rate_percent := sd.2.funding_rate_percent
    status := sd.2.funding_status, signal := sd.2.combined_signal
    priority := "high" }

/-- `FundingMonitor._check_alerts` (the selection condition is kept exactly
as written in the source, dead OI conjunct included). -/
def check_alerts (analysis : List (String × CombinedRec)) : List AlertEntry :=
  analysis.filterMap fun sd =>
    if sd.2.funding_status ∈ ["overheated"] ∨
        (sd.2.funding_status = "overheated" ∧ sd.2.oi_status = "high") then
      some (alertEntryOf sd)
    else none

lemma filterMap_if {α β : Type} (p : α → Bool) (g : α → β) (l : List α) :
    (l.filterMap fun a => if p a then some (g a) else none) =
      (l.filter p).map g := by
  induction l with
  | nil => rfl
  | cons x t ih =>
    by_cases h : p x <;> simp [List.filterMap_cons, List.filter_cons, h, ih]

/-- C4: `_check_alerts` produces exactly one entry per record whose
funding_status is "overheated" and nothing else (the OI-high conjunct never
changes the selection), and every entry carries priority "high". -/
theorem check_alerts_selects_overheated (analysis : List (String × CombinedRec)) :
    check_alerts analysis =
      (analysis.filter fun sd => sd.2.funding_status == "overheated").map
        alertEntryOf ∧
    ∀ a ∈ check_alerts analysis, a.priority = "high" := by
  constructor
  · have hfn : ∀ sd : String × CombinedRec,
        (if sd.2.funding_status ∈ ["overheated"] ∨
            (sd.2.funding_status = "overheated" ∧ sd.2.oi_status = "high") then
          some (alertEntryOf sd) else none) =
        (if sd.2.funding_status == "overheated" then
          some (alertEntryOf sd) else none) := by
      intro sd
      by_cases h : sd.2.funding_status = "overheated" <;> simp [h]
    calc check_alerts analysis
        = analysis.filterMap fun sd =>
            if sd.2.funding_status == "overheated" then
              some (alertEntryOf sd) else none := by
          unfold check_alerts
          simp only [hfn]
      _ = (analysis.filter fun sd =>
            sd.2.funding_status == "overheated").map alertEntryOf :=
          filterMap_if _ _ _
  · intro a ha
    simp only [check_alerts, List.mem_filterMap] at ha
    obtain ⟨sd, -, he⟩ := ha
    by_cases hc : sd.2.funding_status ∈ ["overheated"] ∨
        (sd.2.funding_status = "overheated" ∧ sd.2.oi_status = "high")
    · rw [if_pos hc] at he
      cases he
      rfl
    · rw [if_neg hc] at he
      cases he

/-- Emoji keyed by funding status in `Notifier._format_report_message`
(dict `.get(status, '⚪')`). -/
def reportStatusIcon (funding_status : String) : String :=
  if funding_status = "overheated" then "🔥"
  else if funding_status = "hot" then "🟡"
  else if funding_status = "normal" then "🟢"
  else "⚪"

/-- Python `sorted(analysis.items(), key=lambda x: abs(x[1][...]),
reverse=True)`: combined records ordered by absolute funding-rate percent,
descending. -/
def sortedByAbsFrp (analysis : List (String × CombinedRec)) :
    List (String × CombinedRec) :=
  analysis.mergeSort fun a b =>
    decide (|b.2.funding_rate_percent| ≤ |a.2.funding_rate_percent|)

/-- `Notifier._format_report_message` (wall-clock timestamp passed in as a
parameter). -/
def format_report_message (analysis : List (String × CombinedRec))
    (cycle_type timestamp : String) : String :=
  let header := "📊 **Binance 資金費率報告** (" ++ cycle_type ++ ")\n⏰ " ++
    timestamp ++ "\n\n"
  if analysis = [] then header ++ "無數據\n"
  else
    let total_symbols := analysis.length
    let overheated_count :=
      analysis.countP fun d => d.2.funding_status == "overheated"
    let hot_count := analysis.countP fun d => d.2.funding_status == "hot"
    let stats := "📈 總計幣種: " ++ toString total_symbols ++ "\n🔥 過熱: " ++
      toString overheated_count ++ "\n🟡 偏熱: " ++ toString hot_count ++ "\n\n"
    let top_lines := ((sortedByAbsFrp analysis).take 3).foldl (fun acc sd =>
      acc ++ reportStatusIcon sd.2.funding_status ++ " " ++
        sd.2.base_currency ++ ": " ++
        fmtSigned 4 sd.2.funding_rate_percent ++ "%\n") "**資金費率TOP 3:**\n"
    header ++ stats ++ top_lines

/-- C8: threshold lookup is total: an exact base-currency match returns that
table entry, every unmatched base currency gets the DEFAULT entry. -/
theorem threshold_lookup_total (s : String) :
    get_symbol_threshold s =
      (if baseCurrency s = "BTC" then fundingBTC
       else if baseCurrency s = "ETH" then fundingETH else fundingDEFAULT) ∧
    get_oi_threshold s =
      (if baseCurrency s = "BTC" then oiBTC
       else if baseCurrency s = "ETH" then oiETH else oiDEFAULT) := by
  unfold get_symbol_threshold get_oi_threshold FUNDING_RATE_THRESHOLDS
    OI_THRESHOLDS
  by_cases h1 : baseCurrency s = "BTC"
  · simp [List.lookup, h1]
  · have hb1 : (baseCurrency s == "BTC") = false := beq_eq_false_iff_ne.mpr h1
    by_cases h2 : baseCurrency s = "ETH"
    · simp [List.lookup, hb1, h1, h2]
    · have hb2 : (baseCurrency s == "ETH") = false := beq_eq_false_iff_ne.mpr h2
      by_cases h3 : baseCurrency s = "DEFAULT"
      · simp [List.lookup, hb1, hb2, h1, h2, h3]
      · have hb3 : (baseCurrency s == "DEFAULT") = false :=
          beq_eq_false_iff_ne.mpr h3
        simp [List.lookup, hb1, hb2, hb3, h1, h2]

/-- C9: for a non-empty analysis map, the report message consists of the
header, the total / overheated / hot counts, and one line per entry of the
top 3 of the records sorted by absolute funding-rate percent descending;
the sorted list is a permutation of the input and is ordered. -/
theorem report_message_top3_ranked (analysis : List (String × CombinedRec))
    (cycle_type timestamp : String) (h : analysis ≠ []) :
    (sortedByAbsFrp analysis).Perm analysis ∧
    (sortedByAbsFrp analysis).Pairwise (fun a b =>
      |b.2.funding_rate_percent| ≤ |a.2.funding_rate_percent|) ∧
    format_report_message analysis cycle_type timestamp =
      ("📊 **Binance 資金費率報告** (" ++ cycle_type ++ ")\n⏰ " ++
        timestamp ++ "\n\n") ++
      ("📈 總計幣種: " ++ toString analysis.length ++ "\n🔥 過熱: " ++
        toString (analysis.countP fun d =>
          d.2.funding_status == "overheated") ++
        "\n🟡 偏熱: " ++ toString (analysis.countP fun d =>
          d.2.funding_status == "hot") ++ "\n\n") ++
      ((sortedByAbsFrp analysis).take 3).foldl (fun acc sd =>
        acc ++ reportStatusIcon sd.2.funding_status ++ " " ++
          sd.2.base_currency ++ ": " ++
          fmtSigned 4 sd.2.funding_rate_percent ++ "%\n")
        "**資金費率TOP 3:**\n" := by
  refine ⟨List.mergeSort_perm _ _, ?_, ?_⟩
  · have htrans : ∀ a b c : String × CombinedRec,
        decide (|b.2.funding_rate_percent| ≤ |a.2.funding_rate_percent|) = true →
        decide (|c.2.funding_rate_percent| ≤ |b.2.funding_rate_percent|) = true →
        decide (|c.2.funding_rate_percent| ≤ |a.2.funding_rate_percent|) = true := by
      intro a b c hab hbc
      exact decide_eq_true (le_trans (of_decide_eq_true hbc)
        (of_decide_eq_true hab))
    have htotal : ∀ a b : String × CombinedRec,
        (decide (|b.2.funding_rate_percent| ≤ |a.2.funding_rate_percent|) ||
          decide (|a.2.funding_rate_percent| ≤ |b.2.funding_rate_percent|)) =
          true := by
      intro a b
      rcases le_total |b.2.funding_rate_percent| |a.2.funding_rate_percent|
        with h1 | h1 <;> simp [h1]
    have hp := List.sorted_mergeSort htrans htotal analysis
    exact hp.imp fun hab => of_decide_eq_true hab
  · simp only [format_report_message]
    rw [if_neg h]

/-- Witness for C9 on a singleton analysis map. -/
theorem report_message_top3_ranked_witness :
    (sortedByAbsFrp [("BTC/USDT", combinedBTC)]).Perm
      [("BTC/USDT", combinedBTC)] :=
  (report_message_top3_ranked [("BTC/USDT", combinedBTC)] "5min" "2024-01-01"
    (by simp)).1
